import Mathlib

/-!
Shallow embedding of the miniqmt trading framework's core decision logic:
the risk gate (`risk_control.py`), the MA-crossover strategy (`strategy.py`)
and the EMA/Std strategy with its indicator engine (`EMA_std_strategy`).

Python floats are modelled as exact rationals; a float that may be NaN is
modelled as `Option ℚ` with `none` for NaN (comparisons against NaN are
false, as in Python).  Python dictionaries with possibly-missing keys are
modelled as structures of `Option` fields; `d.get(k, v)` is `Option.getD`
and `d[k]` on a missing key is an explicit `KeyError` value.  Python dates
are modelled as natural numbers; "now" is passed explicitly to the
functions that call `datetime.now()`.
-/

namespace Miniqmt

/-- Python `int(q)` on a float: truncation toward zero. -/
def pyInt (q : ℚ) : ℤ := if 0 ≤ q then ⌊q⌋ else ⌈q⌉

/-- Python float division `a / b`: raises `ZeroDivisionError` when `b = 0`. -/
def pyDiv (a b : ℚ) : Except String ℚ :=
  if b = 0 then .error "ZeroDivisionError: float division by zero" else .ok (a / b)

/-- Python `d[k]` on an optional field: `KeyError` when the key is missing. -/
def getItem (v : Option α) (key : String) : Except String α :=
  match v with
  | some x => .ok x
  | none => .error ("KeyError: " ++ key)

/-! ## risk_control.py -/

/-- The risk-rule set; `DEFAULT_RISK_RULES` provides every key, and the
`risk_rules.get(k, default)` calls in `check_signal` use the same defaults,
so the rules are modelled as a plain structure of present values. -/
structure RiskRules where
  max_position_ratio : ℚ
  max_daily_trades : ℕ
  max_order_value : ℚ
  blacklist : List String
deriving DecidableEq

/-- `DEFAULT_RISK_RULES` from risk_control.py. -/
def DEFAULT_RISK_RULES : RiskRules := ⟨1/10, 10, 50000, []⟩

/-- The mutable state of a `RiskControl` instance: `self.daily_trades` and
`self.today` (dates as naturals). -/
structure RiskState where
  daily_trades : ℕ
  today : ℕ
deriving DecidableEq

/-- A signal dictionary as passed to `check_signal`.  The generators emit
dictionaries with keys `symbol`, `order_type`, `price`, `quantity`; the risk
gate reads keys `symbol`, `action`, `price`, `quantity`.  Missing keys are
`none`. -/
structure SignalDict where
  symbol : Option String
  action : Option String
  order_type : Option String
  price : Option ℚ
  quantity : Option ℤ
deriving DecidableEq

/-- An account-info dictionary; `check_signal` reads `total_asset`
(default 1) and `available_cash` (default 0). -/
structure AccountDict where
  total_asset : Option ℚ
  available_cash : Option ℚ
deriving DecidableEq

/-- One position dictionary: `market_value` (read by the risk gate) and
`volume` (read by the MA strategy). -/
structure PositionDict where
  market_value : Option ℚ
  volume : Option ℤ
deriving DecidableEq

/-- The positions dictionary, as an association list keyed by symbol. -/
def posGet (positions : List (String × PositionDict)) (code : String) :
    Option PositionDict :=
  (positions.find? (fun p => p.1 == code)).map Prod.snd

/-- `RiskControl._update_daily_statistics`: lazy daily rollover of
`self.daily_trades`, then increment. -/
def update_daily_statistics (now : ℕ) (st : RiskState) : RiskState :=
  let st1 := if now ≠ st.today then RiskState.mk 0 now else st
  ⟨st1.daily_trades + 1, st1.today⟩

/-- `RiskControl.check_signal`.  Returns `(passed, reason)` together with the
updated counter state, or the uncaught Python exception.  Field reads happen
in source order (`symbol`, `action`, `price`, `quantity`), each a possible
`KeyError`; the buy-side ratio check divides by `total_asset`, a possible
`ZeroDivisionError`. -/
def check_signal (rules : RiskRules) (now : ℕ) (st : RiskState)
    (signal : SignalDict) (account_info : AccountDict)
    (positions : List (String × PositionDict)) :
    Except String (Bool × String × RiskState) :=
  match getItem signal.symbol "symbol" with
  | .error e => .error e
  | .ok symbol =>
  match getItem signal.action "action" with
  | .error e => .error e
  | .ok action =>
  match getItem signal.price "price" with
  | .error e => .error e
  | .ok price =>
  match getItem signal.quantity "quantity" with
  | .error e => .error e
  | .ok quantity =>
  let value : ℚ := price * (quantity : ℚ)
  if symbol ∈ rules.blacklist then
    .ok (false, symbol ++ " 在黑名单中", st)
  else if rules.max_daily_trades ≤ st.daily_trades then
    .ok (false, "超过单日最大交易次数", st)
  else if rules.max_order_value < value then
    .ok (false, "单笔订单金额 " ++ toString value ++ " 超过限制 "
          ++ toString rules.max_order_value, st)
  else if action = "buy" then
    let position_value := ((posGet positions symbol).bind
      (fun p => p.market_value)).getD 0
    let total_asset := account_info.total_asset.getD 1
    match pyDiv (position_value + value) total_asset with
    | .error e => .error e
    | .ok new_ratio =>
      if rules.max_position_ratio < new_ratio then
        .ok (false, "仓位比例 " ++ toString new_ratio ++ " 超过限制 "
              ++ toString rules.max_position_ratio, st)
      else
        let available_cash := account_info.available_cash.getD 0
        if available_cash < value then
          .ok (false, "资金不足: 需要 " ++ toString value ++ ", 可用 "
                ++ toString available_cash, st)
        else
          .ok (true, "通过", update_daily_statistics now st)
  else
    .ok (true, "通过", update_daily_statistics now st)

/-! ## EMA_std_strategy: throttle (`check_signal_trigger` / `_reset_daily_counts`) -/

/-- The strategy parameters that the signal rules read
(`DEFAULT_STRATEGY_PARAMS` supplies concrete values). -/
structure EMAStdParams where
  std_times : ℚ
  order_amount : ℚ
  sell_ratio : ℚ
  max_signal_triggers : ℕ
deriving DecidableEq

/-- The relevant entries of `DEFAULT_STRATEGY_PARAMS`. -/
def DEFAULT_STRATEGY_PARAMS : EMAStdParams := ⟨3, 50000, 1/2, 1⟩

/-- The throttle state of an `EMAStdStrategy`: `self.signal_counts`
(a count per signal type per symbol) and `self.last_reset_date`
(`none` models the attribute not existing yet). -/
structure ThrState where
  counts : String → String → ℕ
  last_reset_date : Option ℕ

/-- A freshly constructed strategy: all counters zero, no
`last_reset_date` attribute. -/
def freshThrState : ThrState := ⟨fun _ _ => 0, none⟩

/-- `EMAStdStrategy._reset_daily_counts`: clear every counter and record
today when the attribute is missing or the recorded date differs. -/
def reset_daily_counts (today : ℕ) (s : ThrState) : ThrState :=
  if s.last_reset_date = some today then s else ⟨fun _ _ => 0, some today⟩

/-- Point update of the counter table at one (signal type, symbol) key. -/
def bumpCount (c : String → String → ℕ) (signal_type symbol : String) (n : ℕ) :
    String → String → ℕ :=
  fun t sym => if t = signal_type ∧ sym = symbol then n else c t sym

/-- `EMAStdStrategy.check_signal_trigger`: lazy daily reset, then deny
without mutation at the budget, else increment and allow. -/
def check_signal_trigger (max_triggers : ℕ) (today : ℕ)
    (symbol signal_type : String) (s : ThrState) : Bool × ThrState :=
  let s1 := reset_daily_counts today s
  let current_count := s1.counts signal_type symbol
  if max_triggers ≤ current_count then (false, s1)
  else (true, ⟨bumpCount s1.counts signal_type symbol (current_count + 1),
               s1.last_reset_date⟩)

/-! ## EMA_std_strategy: the four signal rules -/

/-- `xtconstant.STOCK_BUY`: an opaque external constant; only its
distinctness from `STOCK_SELL` matters here. -/
def STOCK_BUY : ℕ := 23

/-- `xtconstant.STOCK_SELL`. -/
def STOCK_SELL : ℕ := 24

/-- A trade-intent dictionary emitted by `EMAStdStrategy`
(`symbol`, `order_type`, `price`, `quantity`, `reason`). -/
structure Intent where
  symbol : String
  order_type : ℕ
  price : ℚ
  quantity : ℤ
  reason : String
deriving DecidableEq

/-- The comparison `abs(diff_today) > std_times * std_today` with NaN
modelled as `none`: any comparison against NaN is false in Python. -/
def std_break (std_times diff_today : ℚ) : Option ℚ → Bool
  | none => false
  | some σ => decide (std_times * σ < |diff_today|)

/-- `int(order_amount / current_price / 100) * 100`: the buy quantity,
floored to the lot; division by a zero price raises. -/
def quantity_from_amount (order_amount current_price : ℚ) : Except String ℤ :=
  match pyDiv order_amount current_price with
  | .error e => .error e
  | .ok q => .ok (pyInt (q / 100) * 100)

/-- Second half of `EMAStdStrategy._check_buy_signals`: the trend-reversal
(golden-cross) buy rule, reached when the extreme rule did not return. -/
def check_buy_signal2 (P : EMAStdParams) (today : ℕ) (symbol : String)
    (ema_short_today ema_long_today ema_short_yesterday ema_long_yesterday
     current_price : ℚ) (s : ThrState) :
    Except String (Option Intent) × ThrState :=
  if ema_short_yesterday < ema_long_yesterday ∧
      ema_long_today < ema_short_today then
    match check_signal_trigger P.max_signal_triggers today symbol "trend_buy" s with
    | (false, s1) => (.ok none, s1)
    | (true, s1) =>
      match quantity_from_amount P.order_amount current_price with
      | .error e => (.error e, s1)
      | .ok quantity =>
        if 0 < quantity then
          (.ok (some ⟨symbol, STOCK_BUY, current_price, quantity, "趋势反转买入"⟩), s1)
        else (.ok none, s1)
  else (.ok none, s)

/-- `EMAStdStrategy._check_buy_signals`.  The extreme-difference rule's
condition is evaluated left to right: the throttle is consumed only when
the two indicator conditions already hold, and before the quantity is
computed; a non-positive quantity falls through to the trend rule.  The
final state rides alongside the normal result or the propagated
exception. -/
def check_buy_signals (P : EMAStdParams) (today : ℕ) (symbol : String)
    (ema_short_today ema_long_today diff_today : ℚ) (std_today : Option ℚ)
    (ema_short_yesterday ema_long_yesterday current_price : ℚ)
    (position : ℤ) (s : ThrState) :
    Except String (Option Intent) × ThrState :=
  if ema_short_today < ema_long_today ∧
      std_break P.std_times diff_today std_today = true then
    match check_signal_trigger P.max_signal_triggers today symbol "extreme_buy" s with
    | (false, s1) => check_buy_signal2 P today symbol ema_short_today
        ema_long_today ema_short_yesterday ema_long_yesterday current_price s1
    | (true, s1) =>
      match quantity_from_amount P.order_amount current_price with
      | .error e => (.error e, s1)
      | .ok quantity =>
        if 0 < quantity then
          (.ok (some ⟨symbol, STOCK_BUY, current_price, quantity, "极端差值买入"⟩), s1)
        else check_buy_signal2 P today symbol ema_short_today ema_long_today
          ema_short_yesterday ema_long_yesterday current_price s1
  else check_buy_signal2 P today symbol ema_short_today ema_long_today
    ema_short_yesterday ema_long_yesterday current_price s

/-- Second half of `EMAStdStrategy._check_sell_signals`: the full-liquidation
(death-cross) rule. -/
def check_sell_signal2 (P : EMAStdParams) (today : ℕ) (symbol : String)
    (ema_short_today ema_long_today ema_short_yesterday ema_long_yesterday
     current_price : ℚ) (position : ℤ) (s : ThrState) :
    Except String (Option Intent) × ThrState :=
  if ema_long_yesterday < ema_short_yesterday ∧
      ema_short_today < ema_long_today then
    match check_signal_trigger P.max_signal_triggers today symbol "full_sell" s with
    | (false, s1) => (.ok none, s1)
    | (true, s1) =>
      if 0 < pyInt ((position : ℚ) / 100) * 100 then
        (.ok (some ⟨symbol, STOCK_SELL, current_price,
          pyInt ((position : ℚ) / 100) * 100, "全部清仓"⟩), s1)
      else (.ok none, s1)
  else (.ok none, s)

/-- `EMAStdStrategy._check_sell_signals`: no position means no sell; the
partial-take-profit rule runs first, falling through to the death-cross
rule. -/
def check_sell_signals (P : EMAStdParams) (today : ℕ) (symbol : String)
    (ema_short_today ema_long_today diff_today : ℚ) (std_today : Option ℚ)
    (ema_short_yesterday ema_long_yesterday current_price : ℚ)
    (position : ℤ) (s : ThrState) :
    Except String (Option Intent) × ThrState :=
  if position ≤ 0 then (.ok none, s)
  else if ema_long_today < ema_short_today ∧
      std_break P.std_times diff_today std_today = true then
    match check_signal_trigger P.max_signal_triggers today symbol "partial_sell" s with
    | (false, s1) => check_sell_signal2 P today symbol ema_short_today
        ema_long_today ema_short_yesterday ema_long_yesterday current_price
        position s1
    | (true, s1) =>
      if 0 < pyInt ((position : ℚ) * P.sell_ratio / 100) * 100 then
        (.ok (some ⟨symbol, STOCK_SELL, current_price,
          pyInt ((position : ℚ) * P.sell_ratio / 100) * 100, "部分止盈"⟩), s1)
      else check_sell_signal2 P today symbol ema_short_today ema_long_today
        ema_short_yesterday ema_long_yesterday current_price position s1
  else check_sell_signal2 P today symbol ema_short_today ema_long_today
    ema_short_yesterday ema_long_yesterday current_price position s

/-- The per-symbol body of `EMAStdStrategy.generate_signals` after the
indicator snapshot is available: buy rules first, and a produced buy
intent (or a propagated exception) skips the sell rules entirely. -/
def generate_signal_for_symbol (P : EMAStdParams) (today : ℕ) (symbol : String)
    (ema_short_today ema_long_today diff_today : ℚ) (std_today : Option ℚ)
    (ema_short_yesterday ema_long_yesterday current_price : ℚ)
    (position : ℤ) (s : ThrState) :
    Except String (Option Intent) × ThrState :=
  match check_buy_signals P today symbol ema_short_today ema_long_today
      diff_today std_today ema_short_yesterday ema_long_yesterday
      current_price position s with
  | (.ok (some buy_signal), s1) => (.ok (some buy_signal), s1)
  | (.ok none, s1) => check_sell_signals P today symbol ema_short_today
      ema_long_today diff_today std_today ema_short_yesterday
      ema_long_yesterday current_price position s1
  | (.error e, s1) => (.error e, s1)

/-! ## EMAIndicator -/

/-- The smoothing factor `α = 2/(span+1)` used by
`series.ewm(span=span, adjust=False).mean()`. -/
def emaAlpha (span : ℕ) : ℚ := 2 / ((span : ℚ) + 1)

/-- Recursive tail of the exponential moving average: each output is
`α·y + (1−α)·previous`. -/
def ewmGo (a prev : ℚ) : List ℚ → List ℚ
  | [] => []
  | y :: ys => (a * y + (1 - a) * prev) :: ewmGo a (a * y + (1 - a) * prev) ys

/-- `EMAIndicator.ema`: pandas `ewm(span=span, adjust=False).mean()`, the
recursion `ema[0] = price[0]`, `ema[i] = α·price[i] + (1−α)·ema[i−1]`. -/
def ewmMean (span : ℕ) (xs : List ℚ) : List ℚ :=
  match xs with
  | [] => []
  | x :: rest => x :: ewmGo (emaAlpha span) x rest

/-- Arithmetic mean of a window. -/
def sampleMean (l : List ℚ) : ℚ := l.sum / (l.length : ℚ)

/-- Sample variance of a window (pandas default `ddof = 1`: divisor is the
window length minus one). -/
def sampleVar (l : List ℚ) : ℚ :=
  ((l.map (fun x => (x - sampleMean l) ^ 2)).sum) / ((l.length : ℚ) - 1)

/-- `diff.rolling(std_term, min_periods=std_term).std()`, NaN as `none`:
entry `i` is NaN until `std_term` samples exist ending at `i`, and NaN for
windows shorter than two samples (`ddof = 1` divides by zero there).  The
square root of a rational is irrational in general, so the embedding
carries the squared standard deviation (the sample variance); it is NaN
exactly when the source's standard deviation is, which is all any
property below depends on. -/
def rollingStdSq (w : ℕ) (xs : List ℚ) : List (Option ℚ) :=
  (List.range xs.length).map (fun i =>
    if i + 1 < w ∨ w < 2 then none
    else some (sampleVar ((xs.take (i + 1)).drop (i + 1 - w))))

/-- Replace the last element of a series (`ser.iloc[-1] = last_price`). -/
def setLast (l : List ℚ) (v : ℚ) : List ℚ :=
  if l.isEmpty then l else l.dropLast ++ [v]

/-- `series.iloc[-1]`. -/
def ilocLast (l : List ℚ) : ℚ := l.getLastD 0

/-- `series.iloc[-2]`. -/
def ilocPrev (l : List ℚ) : ℚ := l.dropLast.getLastD 0

/-- The tuple returned by `EMAIndicator.compute_temp_ema_and_std`;
`std_today` is `none` when the rolling standard deviation at the last
index is NaN (the source keeps it as NaN). -/
structure SnapTuple where
  ema_short_today : ℚ
  ema_long_today : ℚ
  diff_today : ℚ
  std_today : Option ℚ
  ema_short_yesterday : ℚ
  ema_long_yesterday : ℚ
deriving DecidableEq

/-- `EMAIndicator.compute_temp_ema_and_std`: fail when the history is
shorter than `max(long_term, std_term) + 2`, else replace the last close
with the live price, run both EMAs, diff them, take the rolling deviation,
and read today's and yesterday's values off the ends. -/
def compute_temp_ema_and_std (close_series : List ℚ) (last_price : ℚ)
    (short_term long_term std_term : ℕ) : Except String SnapTuple :=
  if close_series.length < max long_term std_term + 2 then
    .error "历史数据不足以计算EMA和STD"
  else
    let ser := setLast close_series last_price
    let ema_short := ewmMean short_term ser
    let ema_long := ewmMean long_term ser
    let diff := List.zipWith (fun a b => a - b) ema_short ema_long
    let diff_std := rollingStdSq std_term diff
    .ok ⟨ilocLast ema_short, ilocLast ema_long, ilocLast diff,
         (diff_std.getLastD none), ilocPrev ema_short, ilocPrev ema_long⟩

/-! ## strategy.py: MovingAverageStrategy -/

/-- A signal dictionary emitted by `MovingAverageStrategy._generate_signal`
(`order_type`, `quantity`, `price`, `symbol`). -/
structure MASignal where
  order_type : String
  quantity : ℤ
  price : ℚ
  symbol : String
deriving DecidableEq

/-- `stock_code in positions and positions[stock_code].get('volume', 0) > 0`. -/
def ma_has_position (positions : List (String × PositionDict))
    (stock_code : String) : Bool :=
  match posGet positions stock_code with
  | some p => decide (0 < p.volume.getD 0)
  | none => false

/-- `self.last_signal[stock_code] = v`. -/
def ma_record_signal (last_signal : String → Option String)
    (stock_code v : String) : String → Option String :=
  fun c => if c = stock_code then some v else last_signal c

/-- `MovingAverageStrategy._generate_signal`: golden-cross buy of the fixed
configured volume when flat, death-cross sell of the actual held volume
when long, each suppressed when it would repeat the remembered last
signal.  Returns the optional signal and the updated `last_signal`
memory.  In the sell branch `positions[stock_code]` is present because
`has_position` holds; the `none` arm is unreachable. -/
def ma_generate_signal (volume : ℤ) (stock_code : String)
    (fast_ma slow_ma : List ℚ) (current_price : ℚ)
    (positions : List (String × PositionDict))
    (last_signal : String → Option String) :
    Option MASignal × (String → Option String) :=
  if fast_ma.length < 2 ∨ slow_ma.length < 2 then (none, last_signal)
  else
    let current_fast := ilocLast fast_ma
    let current_slow := ilocLast slow_ma
    let prev_fast := ilocPrev fast_ma
    let prev_slow := ilocPrev slow_ma
    let has_position := ma_has_position positions stock_code
    let last := last_signal stock_code
    if prev_fast ≤ prev_slow ∧ current_slow < current_fast ∧
        has_position = false then
      if last ≠ some "buy" then
        (some ⟨"buy", volume, current_price, stock_code⟩,
         ma_record_signal last_signal stock_code "buy")
      else (none, last_signal)
    else if prev_slow ≤ prev_fast ∧ current_fast < current_slow ∧
        has_position = true then
      if last ≠ some "sell" then
        let sell_volume := match posGet positions stock_code with
          | some p => p.volume.getD volume
          | none => volume
        (some ⟨"sell", sell_volume, current_price, stock_code⟩,
         ma_record_signal last_signal stock_code "sell")
      else (none, last_signal)
    else (none, last_signal)

/-! ## Theorems -/

/-- C1.  The claim fails on the code: the generators emit intents keyed
`symbol`/`order_type`/`price`/`quantity` (see
`MovingAverageStrategy._generate_signal` and `main.py`, which forwards them
unchanged), but `RiskControl.check_signal` reads `signal['action']`, so it
raises `KeyError: 'action'` on every intent the system's own generators
produce; and on a well-keyed buy intent with an account snapshot whose
`total_asset` is present but zero, the position-ratio division raises
`ZeroDivisionError`.  So `check_signal` does not always return an
`(accepted, reason)` pair. -/
theorem c1_check_signal_raises :
    check_signal DEFAULT_RISK_RULES 0 ⟨0, 0⟩
        ⟨some "000001.SZ", none, some "buy", some 10, some 100⟩
        ⟨some 100000, some 100000⟩ [] = .error "KeyError: action" ∧
    check_signal DEFAULT_RISK_RULES 0 ⟨0, 0⟩
        ⟨some "000001.SZ", some "buy", none, some 10, some 100⟩
        ⟨some 0, some 100000⟩ [] =
      .error "ZeroDivisionError: float division by zero" := by
  refine ⟨rfl, ?_⟩
  norm_num [check_signal, getItem, pyDiv, posGet, DEFAULT_RISK_RULES]

/-- Length of the EMA recursion tail. -/
theorem ewmGo_length (a p : ℚ) (ys : List ℚ) :
    (ewmGo a p ys).length = ys.length := by
  induction ys generalizing p with
  | nil => rfl
  | cons y ys ih => simp [ewmGo, ih]

/-- Step equation of the EMA recursion tail. -/
theorem ewmGo_getD_succ (a p : ℚ) (ys : List ℚ) (i : ℕ)
    (h : i + 1 < ys.length) :
    (ewmGo a p ys).getD (i + 1) 0 =
      a * ys.getD (i + 1) 0 + (1 - a) * (ewmGo a p ys).getD i 0 := by
  induction ys generalizing p i with
  | nil => simp at h
  | cons y ys ih =>
    cases i with
    | zero =>
      cases ys with
      | nil => simp at h
      | cons z zs => simp [ewmGo]
    | succ j =>
      have h' : j + 1 < ys.length := by
        simpa using Nat.lt_of_succ_lt_succ h
      simpa [ewmGo] using ih (a * y + (1 - a) * p) j h'

/-- C4.  The engine's EMA has the same length as the input, starts at the
first price, and satisfies
`ema[i] = α·price[i] + (1−α)·ema[i−1]` with `α = 2/(span+1)` — the plain
`adjust=False` recursion, with no separate seeding or bias correction. -/
theorem c4_ema_recursion (xs : List ℚ) (span : ℕ) :
    (ewmMean span xs).length = xs.length ∧
    (0 < xs.length → (ewmMean span xs).getD 0 0 = xs.getD 0 0) ∧
    (∀ i, i + 1 < xs.length →
      (ewmMean span xs).getD (i + 1) 0 =
        emaAlpha span * xs.getD (i + 1) 0 +
          (1 - emaAlpha span) * (ewmMean span xs).getD i 0) := by
  cases xs with
  | nil => simp [ewmMean]
  | cons x rest =>
    refine ⟨by simp [ewmMean, ewmGo_length], by simp [ewmMean], ?_⟩
    intro i h
    cases i with
    | zero =>
      cases rest with
      | nil => simp at h
      | cons y ys => simp [ewmMean, ewmGo]
    | succ j =>
      have h' : j + 1 < rest.length := by
        simpa using Nat.lt_of_succ_lt_succ h
      simpa [ewmMean] using ewmGo_getD_succ (emaAlpha span) x rest j h'

/-- Witness for C4 at the concrete series `[1, 2, 3]` with span 3. -/
theorem c4_ema_recursion_witness :
    (ewmMean 3 [1, 2, 3]).getD 0 0 = ([1, 2, 3] : List ℚ).getD 0 0 ∧
    (ewmMean 3 [1, 2, 3]).getD 1 0 =
      emaAlpha 3 * ([1, 2, 3] : List ℚ).getD 1 0 +
        (1 - emaAlpha 3) * (ewmMean 3 [1, 2, 3]).getD 0 0 :=
  ⟨(c4_ema_recursion [1, 2, 3] 3).2.1 (by decide),
   (c4_ema_recursion [1, 2, 3] 3).2.2 0 (by decide)⟩

/-- C5.  `compute_temp_ema_and_std` fails with the insufficient-history
error exactly when the series is shorter than
`max(long_term, std_term) + 2`, and produces a snapshot exactly
otherwise; in particular length `max + 1` always fails and length
`max + 2` always succeeds. -/
theorem c5_insufficient_history (close_series : List ℚ) (last_price : ℚ)
    (short_term long_term std_term : ℕ) :
    (compute_temp_ema_and_std close_series last_price short_term long_term
        std_term = .error "历史数据不足以计算EMA和STD"
      ↔ close_series.length < max long_term std_term + 2) ∧
    ((∃ t, compute_temp_ema_and_std close_series last_price short_term
        long_term std_term = .ok t)
      ↔ max long_term std_term + 2 ≤ close_series.length) := by
  unfold compute_temp_ema_and_std
  split
  · next h =>
    refine ⟨⟨fun _ => h, fun _ => rfl⟩,
            ⟨fun ht => ?_, fun hle => absurd hle (Nat.not_le.mpr h)⟩⟩
    obtain ⟨t, ht⟩ := ht
    exact Except.noConfusion ht
  · next h =>
    exact ⟨⟨fun ht => Except.noConfusion ht, fun hlt => absurd hlt h⟩,
           ⟨fun _ => Nat.le_of_not_lt h, fun _ => ⟨_, rfl⟩⟩⟩

/-- The lazy reset always records today as the last reset date. -/
theorem reset_daily_counts_date (today : ℕ) (s : ThrState) :
    (reset_daily_counts today s).last_reset_date = some today := by
  unfold reset_daily_counts
  split
  · next h => exact h
  · rfl

/-- C6.  With `max_signal_triggers = 1` and a fresh strategy, two
same-day calls of the throttle for the same (signal type, symbol) return
`true` then `false`; any call that returns `false` leaves the whole
throttle state unchanged; and the first call after the local date
advances clears every counter and returns `true` again. -/
theorem c6_throttle_exhaustion (d d' : ℕ) (sym t : String) (hd : d' ≠ d) :
    (check_signal_trigger 1 d sym t freshThrState).1 = true ∧
    (check_signal_trigger 1 d sym t
        (check_signal_trigger 1 d sym t freshThrState).2).1 = false ∧
    (∀ s : ThrState, ∀ day : ℕ,
      (check_signal_trigger 1 day sym t s).1 = false →
      (check_signal_trigger 1 day sym t s).2 = s) ∧
    (check_signal_trigger 1 d' sym t
        (check_signal_trigger 1 d sym t freshThrState).2).1 = true ∧
    (∀ t' sym', ¬(t' = t ∧ sym' = sym) →
      ((check_signal_trigger 1 d' sym t
          (check_signal_trigger 1 d sym t freshThrState).2).2).counts t' sym'
        = 0) ∧
    ((check_signal_trigger 1 d' sym t
        (check_signal_trigger 1 d sym t freshThrState).2).2).counts t sym
      = 1 := by
  have h1 : check_signal_trigger 1 d sym t freshThrState =
      (true, ⟨bumpCount (fun _ _ => 0) t sym 1, some d⟩) := by
    simp [check_signal_trigger, reset_daily_counts, freshThrState]
  have h2 : check_signal_trigger 1 d sym t
      ⟨bumpCount (fun _ _ => 0) t sym 1, some d⟩ =
      (false, ⟨bumpCount (fun _ _ => 0) t sym 1, some d⟩) := by
    simp [check_signal_trigger, reset_daily_counts, bumpCount]
  have h3 : check_signal_trigger 1 d' sym t
      ⟨bumpCount (fun _ _ => 0) t sym 1, some d⟩ =
      (true, ⟨bumpCount (fun _ _ => 0) t sym 1, some d'⟩) := by
    simp [check_signal_trigger, reset_daily_counts, bumpCount, Ne.symm hd]
  refine ⟨by rw [h1], by rw [h1, h2], ?_, by rw [h1, h3], ?_, ?_⟩
  · intro s day hfalse
    by_cases hr : s.last_reset_date = some day
    · unfold check_signal_trigger reset_daily_counts at hfalse ⊢
      rw [if_pos hr] at hfalse ⊢
      by_cases hc : 1 ≤ s.counts t sym
      · simp [hc]
      · simp [hc] at hfalse
    · unfold check_signal_trigger reset_daily_counts at hfalse
      rw [if_neg hr] at hfalse
      simp at hfalse
  · intro t' sym' hk
    rw [h1, h3]
    simp only [bumpCount]
    rw [if_neg hk]
  · rw [h1, h3]
    simp [bumpCount]

/-- Witness for C6 at days 0 and 1, symbol "AAA", type "extreme_buy",
exercising both the day-rollover hypothesis and the
false-leaves-state-unchanged implication at a concrete state. -/
theorem c6_throttle_exhaustion_witness :
    (check_signal_trigger 1 0 "AAA" "extreme_buy" freshThrState).1 = true ∧
    (check_signal_trigger 1 0 "AAA" "extreme_buy"
      (check_signal_trigger 1 0 "AAA" "extreme_buy" freshThrState).2).2 =
      (check_signal_trigger 1 0 "AAA" "extreme_buy" freshThrState).2 := by
  have h := c6_throttle_exhaustion 0 1 "AAA" "extreme_buy" (by decide)
  exact ⟨h.1, h.2.2.1 _ 0 h.2.1⟩

/-- Reading a present key succeeds. -/
theorem getItem_some (x : α) (k : String) : getItem (some x) k = .ok x := rfl

/-- C2.  On a well-formed intent the risk rules run in the fixed order
blacklist, daily cap, order-value cap, then the buy-only checks: a
blacklisted symbol is rejected with the blacklist reason no matter what
else holds (in particular even when the order value exceeds the cap); a
non-blacklisted intent at the daily cap gets the cap reason; next comes
the order-value reason; every rejection returns the state unchanged (the
daily counter in particular); and acceptance returns the lazily
rolled-over counter plus one. -/
theorem c2_risk_rule_order (rules : RiskRules) (now : ℕ) (st : RiskState)
    (sig : SignalDict) (acct : AccountDict)
    (pos : List (String × PositionDict)) (sym act : String) (p : ℚ) (q : ℤ)
    (hsym : sig.symbol = some sym) (hact : sig.action = some act)
    (hp : sig.price = some p) (hq : sig.quantity = some q) :
    (sym ∈ rules.blacklist →
      check_signal rules now st sig acct pos =
        .ok (false, sym ++ " 在黑名单中", st)) ∧
    (sym ∉ rules.blacklist → rules.max_daily_trades ≤ st.daily_trades →
      check_signal rules now st sig acct pos =
        .ok (false, "超过单日最大交易次数", st)) ∧
    (sym ∉ rules.blacklist → st.daily_trades < rules.max_daily_trades →
      rules.max_order_value < p * (q : ℚ) →
      check_signal rules now st sig acct pos =
        .ok (false, "单笔订单金额 " ++ toString (p * (q : ℚ)) ++ " 超过限制 "
              ++ toString rules.max_order_value, st)) ∧
    (∀ r st', check_signal rules now st sig acct pos = .ok (false, r, st') →
      st' = st) ∧
    (∀ r st', check_signal rules now st sig acct pos = .ok (true, r, st') →
      st' = update_daily_statistics now st ∧
      st'.daily_trades =
        (if now = st.today then st.daily_trades else 0) + 1) := by
  refine ⟨?_, ?_, ?_, ?_, ?_⟩
  · intro hbl
    simp only [check_signal, hsym, hact, hp, hq, getItem_some]
    rw [if_pos hbl]
  · intro hbl hcap
    simp only [check_signal, hsym, hact, hp, hq, getItem_some]
    rw [if_neg hbl, if_pos hcap]
  · intro hbl hcap hval
    simp only [check_signal, hsym, hact, hp, hq, getItem_some]
    rw [if_neg hbl, if_neg (Nat.not_le.mpr hcap), if_pos hval]
  · intro r st' h
    simp only [check_signal, hsym, hact, hp, hq, getItem_some] at h
    repeat' split at h
    all_goals simp_all
  · intro r st' h
    simp only [check_signal, hsym, hact, hp, hq, getItem_some] at h
    repeat' split at h
    all_goals simp_all [update_daily_statistics]
    all_goals obtain ⟨-, h2⟩ := h
    all_goals rw [← h2]
    all_goals split <;> rfl

/-- Witness for C2: symbol "BBB" is blacklisted and its order value
100000 exceeds the cap 50000, yet the rejection carries the blacklist
reason and leaves the counter at 0; a clean sell intent is accepted and
the counter becomes 1. -/
theorem c2_risk_rule_order_witness :
    check_signal ⟨1/10, 10, 50000, ["BBB"]⟩ 5 ⟨0, 5⟩
        ⟨some "BBB", some "buy", none, some 1000, some 100⟩
        ⟨none, none⟩ [] = .ok (false, "BBB 在黑名单中", ⟨0, 5⟩) ∧
    (update_daily_statistics 5 ⟨0, 5⟩ : RiskState).daily_trades =
      (if (5 : ℕ) = 5 then 0 else 0) + 1 := by
  have h := c2_risk_rule_order ⟨1/10, 10, 50000, ["BBB"]⟩ 5 ⟨0, 5⟩
    ⟨some "BBB", some "buy", none, some 1000, some 100⟩ ⟨none, none⟩ []
    "BBB" "buy" 1000 100 rfl rfl rfl rfl
  refine ⟨h.1 (by decide), ?_⟩
  have h2 := c2_risk_rule_order ⟨1/10, 10, 50000, []⟩ 5 ⟨0, 5⟩
    ⟨some "AAA", some "sell", none, some 10, some 100⟩ ⟨none, none⟩ []
    "AAA" "sell" 10 100 rfl rfl rfl rfl
  have hacc : check_signal ⟨1/10, 10, 50000, []⟩ 5 ⟨0, 5⟩
      ⟨some "AAA", some "sell", none, some 10, some 100⟩ ⟨none, none⟩ [] =
      .ok (true, "通过", update_daily_statistics 5 ⟨0, 5⟩) := by
    norm_num [check_signal, getItem]
    exact fun hcon => absurd hcon (by decide)
  simpa using (h2.2.2.2.2 "通过" (update_daily_statistics 5 ⟨0, 5⟩) hacc).2

/-- C10.  On a buy intent that passes the first three rules: when the
account snapshot lacks `total_asset` the ratio check divides by the
default 1, so the intent is rejected with the ratio reason whenever
`position market value + order value > max_position_ratio`; and when the
snapshot lacks `available_cash` the default 0 makes any buy with positive
order value fail the cash check (provided the ratio check passes). -/
theorem c10_missing_account_defaults (rules : RiskRules) (now : ℕ)
    (st : RiskState) (sig : SignalDict) (acct : AccountDict)
    (pos : List (String × PositionDict)) (sym : String) (p : ℚ) (q : ℤ)
    (ta : ℚ)
    (hsym : sig.symbol = some sym) (hact : sig.action = some "buy")
    (hp : sig.price = some p) (hq : sig.quantity = some q)
    (hbl : sym ∉ rules.blacklist)
    (hdaily : st.daily_trades < rules.max_daily_trades)
    (hval : p * (q : ℚ) ≤ rules.max_order_value) :
    (acct.total_asset = none →
      rules.max_position_ratio <
        ((posGet pos sym).bind (fun pd => pd.market_value)).getD 0
          + p * (q : ℚ) →
      check_signal rules now st sig acct pos =
        .ok (false, "仓位比例 "
          ++ toString (((posGet pos sym).bind (fun pd => pd.market_value)).getD 0
                + p * (q : ℚ))
          ++ " 超过限制 " ++ toString rules.max_position_ratio, st)) ∧
    (acct.available_cash = none → acct.total_asset = some ta → ta ≠ 0 →
      (((posGet pos sym).bind (fun pd => pd.market_value)).getD 0
          + p * (q : ℚ)) / ta ≤ rules.max_position_ratio →
      0 < p * (q : ℚ) →
      check_signal rules now st sig acct pos =
        .ok (false, "资金不足: 需要 " ++ toString (p * (q : ℚ)) ++ ", 可用 "
          ++ toString (0 : ℚ), st)) := by
  constructor
  · intro hta hover
    simp only [check_signal, hsym, hact, hp, hq, getItem_some]
    rw [if_neg hbl, if_neg (Nat.not_le.mpr hdaily), if_neg (not_lt.mpr hval)]
    simp only [if_true, hta, Option.getD_none, pyDiv,
      if_neg ((one_ne_zero : (1 : ℚ) ≠ 0)), div_one]
    rw [if_pos hover]
  · intro hcash hta hta0 hratio hpos
    simp only [check_signal, hsym, hact, hp, hq, getItem_some]
    rw [if_neg hbl, if_neg (Nat.not_le.mpr hdaily), if_neg (not_lt.mpr hval)]
    simp only [if_true, hta, hcash, Option.getD_some, Option.getD_none,
      pyDiv, if_neg hta0]
    rw [if_neg (not_lt.mpr hratio), if_pos hpos]

/-- Witness for C10: a 1000-yuan buy against an account snapshot with no
`total_asset` is rejected by the ratio rule, and against a snapshot with
`total_asset` present but no `available_cash` it is rejected by the cash
rule. -/
theorem c10_missing_account_defaults_witness :
    check_signal ⟨1/10, 10, 50000, []⟩ 5 ⟨0, 5⟩
        ⟨some "AAA", some "buy", none, some 10, some 100⟩
        ⟨none, some 5000⟩ [] =
      .ok (false, "仓位比例 " ++ toString ((0 : ℚ) + 10 * ((100 : ℤ) : ℚ))
        ++ " 超过限制 " ++ toString ((1 : ℚ)/10), ⟨0, 5⟩) ∧
    check_signal ⟨1/10, 10, 50000, []⟩ 5 ⟨0, 5⟩
        ⟨some "AAA", some "buy", none, some 10, some 100⟩
        ⟨some 100000, none⟩ [] =
      .ok (false, "资金不足: 需要 " ++ toString (10 * ((100 : ℤ) : ℚ)) ++ ", 可用 "
        ++ toString (0 : ℚ), ⟨0, 5⟩) := by
  constructor
  · have h := c10_missing_account_defaults ⟨1/10, 10, 50000, []⟩ 5 ⟨0, 5⟩
      ⟨some "AAA", some "buy", none, some 10, some 100⟩ ⟨none, some 5000⟩ []
      "AAA" 10 100 1 rfl rfl rfl rfl (by decide) (by decide) (by norm_num)
    have h1 := h.1 rfl (by norm_num [posGet])
    rw [h1]
    norm_num [posGet]
  · have h := c10_missing_account_defaults ⟨1/10, 10, 50000, []⟩ 5 ⟨0, 5⟩
      ⟨some "AAA", some "buy", none, some 10, some 100⟩ ⟨some 100000, none⟩ []
      "AAA" 10 100 100000 rfl rfl rfl rfl (by decide) (by decide) (by norm_num)
    have h2 := h.2 rfl rfl (by norm_num) (by norm_num [posGet]) (by norm_num)
    rw [h2]

/-- Any quantity the buy formula returns is a multiple of the lot 100. -/
theorem quantity_from_amount_dvd (a p : ℚ) (n : ℤ)
    (h : quantity_from_amount a p = .ok n) : (100 : ℤ) ∣ n := by
  unfold quantity_from_amount at h
  cases hd : pyDiv a p with
  | error e => rw [hd] at h; exact Except.noConfusion h
  | ok qv =>
    rw [hd] at h
    injection h with h
    rw [← h]
    exact ⟨pyInt (qv / 100), mul_comm _ _⟩

/-- Whatever the trend-buy half emits is a positive lot-multiple buy with
the trend reason. -/
theorem check_buy_signal2_emit (P : EMAStdParams) (today : ℕ) (symbol : String)
    (a b c d price : ℚ) (s : ThrState) (i : Intent)
    (h : (check_buy_signal2 P today symbol a b c d price s).1 = .ok (some i)) :
    i.reason = "趋势反转买入" ∧ i.order_type = STOCK_BUY ∧
      0 < i.quantity ∧ (100 : ℤ) ∣ i.quantity := by
  unfold check_buy_signal2 at h
  split at h
  · split at h
    · simp at h
    · split at h
      · simp at h
      · next quantity heq =>
        split at h
        · next hpos =>
          simp only at h
          injection h with h
          injection h with h
          rw [← h]
          exact ⟨rfl, rfl, hpos, quantity_from_amount_dvd _ _ _ heq⟩
        · simp at h
  · simp at h

/-- Whatever the death-cross half emits is a positive lot-multiple sell
with the full-liquidation reason. -/
theorem check_sell_signal2_emit (P : EMAStdParams) (today : ℕ) (symbol : String)
    (a b c d price : ℚ) (position : ℤ) (s : ThrState) (i : Intent)
    (h : (check_sell_signal2 P today symbol a b c d price position s).1 =
      .ok (some i)) :
    i.reason = "全部清仓" ∧ i.order_type = STOCK_SELL ∧
      0 < i.quantity ∧ (100 : ℤ) ∣ i.quantity := by
  unfold check_sell_signal2 at h
  split at h
  · split at h
    · simp at h
    · split at h
      · next hpos =>
        simp only at h
        injection h with h
        injection h with h
        rw [← h]
        exact ⟨rfl, rfl, hpos, ⟨pyInt ((position : ℚ) / 100), mul_comm _ _⟩⟩
      · simp at h
  · simp at h

/-- Whatever the buy rules emit is a positive lot-multiple buy carrying
one of the two buy reasons. -/
theorem check_buy_signals_emit (P : EMAStdParams) (today : ℕ) (symbol : String)
    (est elt diff : ℚ) (std : Option ℚ) (esy ely price : ℚ) (position : ℤ)
    (s : ThrState) (i : Intent)
    (h : (check_buy_signals P today symbol est elt diff std esy ely price
        position s).1 = .ok (some i)) :
    (i.reason = "极端差值买入" ∨ i.reason = "趋势反转买入") ∧
      i.order_type = STOCK_BUY ∧ 0 < i.quantity ∧ (100 : ℤ) ∣ i.quantity := by
  unfold check_buy_signals at h
  split at h
  · split at h
    · have hh := check_buy_signal2_emit _ _ _ _ _ _ _ _ _ _ h
      exact ⟨Or.inr hh.1, hh.2⟩
    · split at h
      · simp at h
      · next quantity heq =>
        split at h
        · next hpos =>
          simp only at h
          injection h with h
          injection h with h
          rw [← h]
          exact ⟨Or.inl rfl, rfl, hpos, quantity_from_amount_dvd _ _ _ heq⟩
        · have hh := check_buy_signal2_emit _ _ _ _ _ _ _ _ _ _ h
          exact ⟨Or.inr hh.1, hh.2⟩
  · have hh := check_buy_signal2_emit _ _ _ _ _ _ _ _ _ _ h
    exact ⟨Or.inr hh.1, hh.2⟩

/-- Whatever the sell rules emit is a positive lot-multiple sell carrying
one of the two sell reasons. -/
theorem check_sell_signals_emit (P : EMAStdParams) (today : ℕ) (symbol : String)
    (est elt diff : ℚ) (std : Option ℚ) (esy ely price : ℚ) (position : ℤ)
    (s : ThrState) (i : Intent)
    (h : (check_sell_signals P today symbol est elt diff std esy ely price
        position s).1 = .ok (some i)) :
    (i.reason = "部分止盈" ∨ i.reason = "全部清仓") ∧
      i.order_type = STOCK_SELL ∧ 0 < i.quantity ∧ (100 : ℤ) ∣ i.quantity := by
  unfold check_sell_signals at h
  split at h
  · simp at h
  · split at h
    · split at h
      · have hh := check_sell_signal2_emit _ _ _ _ _ _ _ _ _ _ _ h
        exact ⟨Or.inr hh.1, hh.2⟩
      · split at h
        · next hpos =>
          simp only at h
          injection h with h
          injection h with h
          rw [← h]
          exact ⟨Or.inl rfl, rfl, hpos,
            ⟨pyInt ((position : ℚ) * P.sell_ratio / 100), mul_comm _ _⟩⟩
        · have hh := check_sell_signal2_emit _ _ _ _ _ _ _ _ _ _ _ h
          exact ⟨Or.inr hh.1, hh.2⟩
    · have hh := check_sell_signal2_emit _ _ _ _ _ _ _ _ _ _ _ h
      exact ⟨Or.inr hh.1, hh.2⟩

/-- A throttle call for one key never changes any other key's counter
(once today's reset has already happened). -/
theorem check_signal_trigger_counts (m today : ℕ) (symbol signal_type : String)
    (s : ThrState) (t' sym' : String)
    (hk : ¬(t' = signal_type ∧ sym' = symbol))
    (hdate : s.last_reset_date = some today) :
    ((check_signal_trigger m today symbol signal_type s).2).counts t' sym' =
      s.counts t' sym' := by
  have hr : reset_daily_counts today s = s := by
    unfold reset_daily_counts; exact if_pos hdate
  simp only [check_signal_trigger, hr]
  split
  · rfl
  · simp [bumpCount, hk]

/-- A throttle call records today as the reset date. -/
theorem check_signal_trigger_date (m today : ℕ) (symbol signal_type : String)
    (s : ThrState) :
    ((check_signal_trigger m today symbol signal_type s).2).last_reset_date =
      some today := by
  simp only [check_signal_trigger]
  split
  · exact reset_daily_counts_date today s
  · exact reset_daily_counts_date today s

/-- When the buy quantity rounds to zero, the trend-buy half emits
nothing. -/
theorem check_buy_signal2_zero (P : EMAStdParams) (today : ℕ) (symbol : String)
    (a b c d price : ℚ) (s : ThrState)
    (hq : quantity_from_amount P.order_amount price = .ok 0) :
    (check_buy_signal2 P today symbol a b c d price s).1 = .ok none := by
  unfold check_buy_signal2
  split
  · rcases hc : check_signal_trigger P.max_signal_triggers today symbol
        "trend_buy" s with ⟨bb, s1⟩
    cases bb
    · rfl
    · rw [hq]
      simp
  · rfl

/-- The trend-buy half never touches the `extreme_buy` counter (once the
reset has happened). -/
theorem check_buy_signal2_counts (P : EMAStdParams) (today : ℕ)
    (symbol : String) (a b c d price : ℚ) (s : ThrState) (t' sym' : String)
    (ht : t' ≠ "trend_buy") (hdate : s.last_reset_date = some today) :
    ((check_buy_signal2 P today symbol a b c d price s).2).counts t' sym' =
      s.counts t' sym' := by
  rcases hc : check_signal_trigger P.max_signal_triggers today symbol
      "trend_buy" s with ⟨bb, s1⟩
  have hcounts : s1.counts t' sym' = s.counts t' sym' := by
    have hx := check_signal_trigger_counts P.max_signal_triggers today symbol
      "trend_buy" s t' sym' (fun hand => ht hand.1) hdate
    rw [hc] at hx
    exact hx
  cases bb
  · simp only [check_buy_signal2, hc]
    split
    · exact hcounts
    · rfl
  · simp only [check_buy_signal2, hc]
    split
    · cases hqa : quantity_from_amount P.order_amount price with
      | error e => exact hcounts
      | ok qv =>
        repeat' split
        all_goals exact hcounts
    · rfl

/-- C3.  When the extreme-buy condition holds and that signal's daily
budget is still available, the throttle counter for
`("extreme_buy", symbol)` is consumed before the quantity is computed:
with a quantity that rounds to zero the evaluation emits no intent at
all, yet the counter still ends up one higher than its post-reset
value. -/
theorem c3_throttle_consumed_before_quantity (P : EMAStdParams) (today : ℕ)
    (symbol : String) (est elt diff σ esy ely price : ℚ) (position : ℤ)
    (s : ThrState)
    (hcond1 : est < elt) (hcond2 : P.std_times * σ < |diff|)
    (havail : (reset_daily_counts today s).counts "extreme_buy" symbol
      < P.max_signal_triggers)
    (hq : quantity_from_amount P.order_amount price = .ok 0) :
    (check_buy_signals P today symbol est elt diff (some σ) esy ely price
        position s).1 = .ok none ∧
    ((check_buy_signals P today symbol est elt diff (some σ) esy ely price
        position s).2).counts "extreme_buy" symbol =
      (reset_daily_counts today s).counts "extreme_buy" symbol + 1 := by
  have hcondB : std_break P.std_times diff (some σ) = true := by
    simp [std_break]
    exact hcond2
  have hcst : check_signal_trigger P.max_signal_triggers today symbol
      "extreme_buy" s =
      (true, ⟨bumpCount (reset_daily_counts today s).counts "extreme_buy"
          symbol ((reset_daily_counts today s).counts "extreme_buy" symbol + 1),
        (reset_daily_counts today s).last_reset_date⟩) := by
    simp only [check_signal_trigger]
    rw [if_neg (Nat.not_le.mpr havail)]
  have hred : check_buy_signals P today symbol est elt diff (some σ) esy ely
      price position s =
      check_buy_signal2 P today symbol est elt esy ely price
        ⟨bumpCount (reset_daily_counts today s).counts "extreme_buy" symbol
            ((reset_daily_counts today s).counts "extreme_buy" symbol + 1),
          (reset_daily_counts today s).last_reset_date⟩ := by
    unfold check_buy_signals
    rw [if_pos ⟨hcond1, hcondB⟩, hcst, hq]
    simp
  rw [hred]
  constructor
  · exact check_buy_signal2_zero P today symbol est elt esy ely price _ hq
  · rw [check_buy_signal2_counts P today symbol est elt esy ely price
      ⟨bumpCount (reset_daily_counts today s).counts "extreme_buy" symbol
          ((reset_daily_counts today s).counts "extreme_buy" symbol + 1),
        (reset_daily_counts today s).last_reset_date⟩
      "extreme_buy" symbol (by decide) (reset_daily_counts_date today s)]
    simp [bumpCount]

/-- Witness for C3: the extreme-buy condition holds, the fresh budget is
available, and at price 1000000 the 50000-yuan order rounds to zero
shares; no intent is emitted but the extreme-buy counter is consumed. -/
theorem c3_throttle_consumed_before_quantity_witness :
    (check_buy_signals DEFAULT_STRATEGY_PARAMS 0 "A" 1 2 (-1) (some (1/100))
        5 6 1000000 0 freshThrState).1 = .ok none ∧
    ((check_buy_signals DEFAULT_STRATEGY_PARAMS 0 "A" 1 2 (-1) (some (1/100))
        5 6 1000000 0 freshThrState).2).counts "extreme_buy" "A" =
      (reset_daily_counts 0 freshThrState).counts "extreme_buy" "A" + 1 :=
  c3_throttle_consumed_before_quantity DEFAULT_STRATEGY_PARAMS 0 "A" 1 2 (-1)
    (1/100) 5 6 1000000 0 freshThrState (by norm_num)
    (by norm_num [DEFAULT_STRATEGY_PARAMS])
    (by simp [reset_daily_counts, freshThrState, DEFAULT_STRATEGY_PARAMS])
    (by norm_num [quantity_from_amount, pyDiv, pyInt, DEFAULT_STRATEGY_PARAMS])

/-- C7 counterexample.  The MA-crossover generator, on a death cross with
an actual held volume of 50 shares, emits a sell intent whose quantity 50
is strictly positive but not a multiple of the lot size 100 — refuting
the claim that every emitted intent's quantity is a multiple of the lot
size. -/
theorem c7_counterexample_ma_sell_odd_lot :
    (ma_generate_signal 100 "000001.SZ" [2, 1] [1, 2] 3
        [("000001.SZ", ⟨some 500, some 50⟩)] (fun _ => none)).1 =
      some ⟨"sell", 50, 3, "000001.SZ"⟩ ∧
    (0 : ℤ) < 50 ∧ ¬ ((100 : ℤ) ∣ 50) := by
  refine ⟨by decide, by decide, by decide⟩

/-- C7 as amended.  Every intent the EMA/Std rules emit (buy or sell) has
a strictly positive quantity that is a multiple of the lot 100; the
MA-crossover generator's buy intents carry the configured volume (so they
are positive whenever that volume is) and its sell intents carry the
actual held volume, which is strictly positive but need not be a lot
multiple. -/
theorem c7_amended_emitted_quantities (P : EMAStdParams) (today : ℕ)
    (symbol : String) (est elt diff : ℚ) (std : Option ℚ)
    (esy ely price : ℚ) (position : ℤ) (s : ThrState)
    (volume : ℤ) (stock_code : String) (fast_ma slow_ma : List ℚ)
    (current_price : ℚ) (positions : List (String × PositionDict))
    (last_signal : String → Option String) :
    (∀ i, (check_buy_signals P today symbol est elt diff std esy ely price
        position s).1 = .ok (some i) →
      0 < i.quantity ∧ (100 : ℤ) ∣ i.quantity) ∧
    (∀ i, (check_sell_signals P today symbol est elt diff std esy ely price
        position s).1 = .ok (some i) →
      0 < i.quantity ∧ (100 : ℤ) ∣ i.quantity) ∧
    (∀ sig, (ma_generate_signal volume stock_code fast_ma slow_ma
        current_price positions last_signal).1 = some sig →
      (sig.order_type = "buy" ∧ sig.quantity = volume) ∨
      (sig.order_type = "sell" ∧ 0 < sig.quantity)) := by
  refine ⟨?_, ?_, ?_⟩
  · intro i h
    exact (check_buy_signals_emit P today symbol est elt diff std esy ely
      price position s i h).2.2
  · intro i h
    exact (check_sell_signals_emit P today symbol est elt diff std esy ely
      price position s i h).2.2
  · intro sig h
    simp only [ma_generate_signal] at h
    split at h
    · simp at h
    · split at h
      · split at h
        · injection h with h
          rw [← h]
          exact Or.inl ⟨rfl, rfl⟩
        · simp at h
      · split at h
        · next hcross =>
          split at h
          · injection h with h
            rw [← h]
            refine Or.inr ⟨rfl, ?_⟩
            have hhp := hcross.2.2
            unfold ma_has_position at hhp
            rcases hpg : posGet positions stock_code with - | pd
            · rw [hpg] at hhp
              exact Bool.noConfusion hhp
            · rw [hpg] at hhp
              show 0 < pd.volume.getD volume
              have hp0 : 0 < pd.volume.getD 0 := of_decide_eq_true hhp
              rcases hv : pd.volume with - | v
              · rw [hv] at hp0
                simp at hp0
              · rw [hv] at hp0
                simpa using hp0
          · simp at h
        · simp at h

/-- Witness for C7 (amended): a concrete extreme-value buy of 10000
shares, a concrete death-cross full sell of 500 shares, and a concrete
MA-crossover golden-cross buy of the configured volume 100. -/
theorem c7_amended_emitted_quantities_witness :
    ((check_buy_signals DEFAULT_STRATEGY_PARAMS 0 "A" 1 2 (-1) (some (1/100))
        5 6 5 0 freshThrState).1 =
      .ok (some ⟨"A", STOCK_BUY, 5, 10000, "极端差值买入"⟩)) ∧
    (0 : ℤ) < (10000 : ℤ) ∧ (100 : ℤ) ∣ (10000 : ℤ) ∧
    ((check_sell_signals DEFAULT_STRATEGY_PARAMS 0 "A" 1 2 (-1) none 3 2 5 500
        freshThrState).1 = .ok (some ⟨"A", STOCK_SELL, 5, 500, "全部清仓"⟩)) ∧
    (0 : ℤ) < (500 : ℤ) ∧ (100 : ℤ) ∣ (500 : ℤ) ∧
    ((ma_generate_signal 100 "X" [1, 3] [2, 2] 3 [] (fun _ => none)).1 =
      some ⟨"buy", 100, 3, "X"⟩) ∧
    (⟨"buy", 100, 3, "X"⟩ : MASignal).quantity = 100 := by
  have hbuy : (check_buy_signals DEFAULT_STRATEGY_PARAMS 0 "A" 1 2 (-1)
      (some (1/100)) 5 6 5 0 freshThrState).1 =
      .ok (some ⟨"A", STOCK_BUY, 5, 10000, "极端差值买入"⟩) := by
    norm_num [check_buy_signals, check_buy_signal2, check_signal_trigger,
      reset_daily_counts, bumpCount, freshThrState, std_break,
      quantity_from_amount, pyDiv, pyInt, DEFAULT_STRATEGY_PARAMS, STOCK_BUY]
    simp
  have hsell : (check_sell_signals DEFAULT_STRATEGY_PARAMS 0 "A" 1 2 (-1) none
      3 2 5 500 freshThrState).1 =
      .ok (some ⟨"A", STOCK_SELL, 5, 500, "全部清仓"⟩) := by
    norm_num [check_sell_signals, check_sell_signal2, check_signal_trigger,
      reset_daily_counts, bumpCount, freshThrState, std_break,
      quantity_from_amount, pyDiv, pyInt, DEFAULT_STRATEGY_PARAMS, STOCK_SELL]
    simp
  have hma : (ma_generate_signal 100 "X" [1, 3] [2, 2] 3 []
      (fun _ => none)).1 = some ⟨"buy", 100, 3, "X"⟩ := by
    decide
  have h1 := (c7_amended_emitted_quantities DEFAULT_STRATEGY_PARAMS 0 "A" 1 2
    (-1) (some (1/100)) 5 6 5 0 freshThrState 100 "X" [1, 3] [2, 2] 3 []
    (fun _ => none)).1 _ hbuy
  have h2 := (c7_amended_emitted_quantities DEFAULT_STRATEGY_PARAMS 0 "A" 1 2
    (-1) none 3 2 5 500 freshThrState 100 "X" [1, 3] [2, 2] 3 []
    (fun _ => none)).2.1 _ hsell
  have h3 := (c7_amended_emitted_quantities DEFAULT_STRATEGY_PARAMS 0 "A" 1 2
    (-1) none 3 2 5 500 freshThrState 100 "X" [1, 3] [2, 2] 3 []
    (fun _ => none)).2.2 _ hma
  refine ⟨hbuy, h1.1, h1.2, hsell, h2.1, h2.2, hma, ?_⟩
  rcases h3 with ⟨-, hq⟩ | ⟨hcon, -⟩
  · exact hq
  · exact absurd hcon (by decide)

/-- C8.  Per symbol per cycle: the EMA/Std dispatcher returns exactly the
buy evaluation's outcome whenever the buy rules produce an intent — the
sell rules are not evaluated and the throttle state is exactly the buy
evaluation's state; sell rules run only when the buy rules produced
nothing, on the buy-stage state; and in the MA-crossover generator a
golden-cross situation (buy side, checked first) can only yield a buy
signal.  Each generator returns at most one optional intent per symbol. -/
theorem c8_buy_checked_first (P : EMAStdParams) (today : ℕ) (symbol : String)
    (est elt diff : ℚ) (std : Option ℚ) (esy ely price : ℚ) (position : ℤ)
    (s : ThrState) (volume : ℤ) (stock_code : String)
    (fast_ma slow_ma : List ℚ) (current_price : ℚ)
    (positions : List (String × PositionDict))
    (last_signal : String → Option String) :
    (∀ i, (check_buy_signals P today symbol est elt diff std esy ely price
        position s).1 = .ok (some i) →
      generate_signal_for_symbol P today symbol est elt diff std esy ely
          price position s =
        check_buy_signals P today symbol est elt diff std esy ely price
          position s) ∧
    ((check_buy_signals P today symbol est elt diff std esy ely price
        position s).1 = .ok none →
      generate_signal_for_symbol P today symbol est elt diff std esy ely
          price position s =
        check_sell_signals P today symbol est elt diff std esy ely price
          position ((check_buy_signals P today symbol est elt diff std esy
            ely price position s).2)) ∧
    (ilocPrev fast_ma ≤ ilocPrev slow_ma → ilocLast slow_ma < ilocLast fast_ma →
      ma_has_position positions stock_code = false →
      ∀ sig, (ma_generate_signal volume stock_code fast_ma slow_ma
          current_price positions last_signal).1 = some sig →
        sig.order_type = "buy") := by
  refine ⟨?_, ?_, ?_⟩
  · intro i h
    rcases hcb : check_buy_signals P today symbol est elt diff std esy ely
        price position s with ⟨e, s1⟩
    rw [hcb] at h
    have he : e = .ok (some i) := h
    subst he
    unfold generate_signal_for_symbol
    rw [hcb]
  · intro h
    rcases hcb : check_buy_signals P today symbol est elt diff std esy ely
        price position s with ⟨e, s1⟩
    rw [hcb] at h
    have he : e = .ok none := h
    subst he
    unfold generate_signal_for_symbol
    rw [hcb]
  · intro h1 h2 h3 sig h
    simp only [ma_generate_signal] at h
    split at h
    · simp at h
    · rw [if_pos ⟨h1, h2, h3⟩] at h
      split at h
      · injection h with h
        rw [← h]
      · simp at h

/-- Witness for C8: a concrete trend-buy emission short-circuits the
dispatcher, and a concrete golden cross with no position yields a buy
signal from the MA generator. -/
theorem c8_buy_checked_first_witness :
    ((check_buy_signals DEFAULT_STRATEGY_PARAMS 0 "A" 3 2 (-1) none 1 2 5 0
        freshThrState).1 =
      .ok (some ⟨"A", STOCK_BUY, 5, 10000, "趋势反转买入"⟩)) ∧
    (generate_signal_for_symbol DEFAULT_STRATEGY_PARAMS 0 "A" 3 2 (-1) none
        1 2 5 0 freshThrState =
      check_buy_signals DEFAULT_STRATEGY_PARAMS 0 "A" 3 2 (-1) none 1 2 5 0
        freshThrState) ∧
    ((ma_generate_signal 100 "X" [1, 3] [2, 2] 3 [] (fun _ => none)).1 =
      some ⟨"buy", 100, 3, "X"⟩) ∧
    (⟨"buy", 100, 3, "X"⟩ : MASignal).order_type = "buy" := by
  have hbuy : (check_buy_signals DEFAULT_STRATEGY_PARAMS 0 "A" 3 2 (-1) none
      1 2 5 0 freshThrState).1 =
      .ok (some ⟨"A", STOCK_BUY, 5, 10000, "趋势反转买入"⟩) := by
    norm_num [check_buy_signals, check_buy_signal2, check_signal_trigger,
      reset_daily_counts, bumpCount, freshThrState, std_break,
      quantity_from_amount, pyDiv, pyInt, DEFAULT_STRATEGY_PARAMS, STOCK_BUY]
    simp
  have hma : (ma_generate_signal 100 "X" [1, 3] [2, 2] 3 []
      (fun _ => none)).1 = some ⟨"buy", 100, 3, "X"⟩ := by
    decide
  have h := c8_buy_checked_first DEFAULT_STRATEGY_PARAMS 0 "A" 3 2 (-1) none
    1 2 5 0 freshThrState 100 "X" [1, 3] [2, 2] 3 [] (fun _ => none)
  exact ⟨hbuy, h.1 _ hbuy,
    hma, h.2.2 (by decide) (by decide) (by decide) _ hma⟩

/-- C9.  With `std_today` NaN (undefined: fewer than `std_term` diff
samples in the rolling window, which itself yields `none` entries), the
two rules that compare `abs(diff)` against `std_times·std` can never
fire: every intent the buy rules emit is then the trend-reversal buy and
every intent the sell rules emit is then the full liquidation, whatever
the other indicator values; and a rolling-deviation entry over fewer than
`std_term` samples is `none`. -/
theorem c9_std_undefined_disables (P : EMAStdParams) (today : ℕ)
    (symbol : String) (est elt diff esy ely price : ℚ) (position : ℤ)
    (s : ThrState) :
    (∀ i, (check_buy_signals P today symbol est elt diff none esy ely price
        position s).1 = .ok (some i) → i.reason = "趋势反转买入") ∧
    (∀ i, (check_sell_signals P today symbol est elt diff none esy ely price
        position s).1 = .ok (some i) → i.reason = "全部清仓") ∧
    (∀ (w : ℕ) (xs : List ℚ) (ix : ℕ), ix < xs.length → ix + 1 < w →
      (rollingStdSq w xs).getD ix (some 0) = none) := by
  refine ⟨?_, ?_, ?_⟩
  · intro i h
    unfold check_buy_signals at h
    rw [if_neg (by simp [std_break])] at h
    exact (check_buy_signal2_emit _ _ _ _ _ _ _ _ _ _ h).1
  · intro i h
    unfold check_sell_signals at h
    split at h
    · simp at h
    · rw [if_neg (by simp [std_break])] at h
      exact (check_sell_signal2_emit _ _ _ _ _ _ _ _ _ _ _ h).1
  · intro w xs ix hlen hw
    unfold rollingStdSq
    rw [List.getD_eq_getElem?_getD, List.getElem?_map, List.getElem?_range hlen]
    simp [hw]

/-- Witness for C9: with NaN deviation the trend-buy and full-sell rules
still fire (with their own reasons), and the window entry at index 1 of a
2-element series under window 3 is undefined. -/
theorem c9_std_undefined_disables_witness :
    ((check_buy_signals DEFAULT_STRATEGY_PARAMS 0 "A" 3 2 (-1) none 1 2 5 0
        freshThrState).1 =
      .ok (some ⟨"A", STOCK_BUY, 5, 10000, "趋势反转买入"⟩)) ∧
    (⟨"A", STOCK_BUY, 5, 10000, "趋势反转买入"⟩ : Intent).reason = "趋势反转买入" ∧
    ((check_sell_signals DEFAULT_STRATEGY_PARAMS 0 "A" 1 2 (-1) none 3 2 5 500
        freshThrState).1 = .ok (some ⟨"A", STOCK_SELL, 5, 500, "全部清仓"⟩)) ∧
    (⟨"A", STOCK_SELL, 5, 500, "全部清仓"⟩ : Intent).reason = "全部清仓" ∧
    (rollingStdSq 3 [1, 2]).getD 1 (some 0) = none := by
  have hbuy : (check_buy_signals DEFAULT_STRATEGY_PARAMS 0 "A" 3 2 (-1) none
      1 2 5 0 freshThrState).1 =
      .ok (some ⟨"A", STOCK_BUY, 5, 10000, "趋势反转买入"⟩) := by
    norm_num [check_buy_signals, check_buy_signal2, check_signal_trigger,
      reset_daily_counts, bumpCount, freshThrState, std_break,
      quantity_from_amount, pyDiv, pyInt, DEFAULT_STRATEGY_PARAMS, STOCK_BUY]
    simp
  have hsell : (check_sell_signals DEFAULT_STRATEGY_PARAMS 0 "A" 1 2 (-1) none
      3 2 5 500 freshThrState).1 =
      .ok (some ⟨"A", STOCK_SELL, 5, 500, "全部清仓"⟩) := by
    norm_num [check_sell_signals, check_sell_signal2, check_signal_trigger,
      reset_daily_counts, bumpCount, freshThrState, std_break,
      quantity_from_amount, pyDiv, pyInt, DEFAULT_STRATEGY_PARAMS, STOCK_SELL]
    simp
  have h := c9_std_undefined_disables DEFAULT_STRATEGY_PARAMS 0 "A" 3 2 (-1)
    1 2 5 0 freshThrState
  have h2 := c9_std_undefined_disables DEFAULT_STRATEGY_PARAMS 0 "A" 1 2 (-1)
    3 2 5 500 freshThrState
  exact ⟨hbuy, h.1 _ hbuy, hsell, h2.2.1 _ hsell,
    h.2.2 3 [1, 2] 1 (by decide) (by decide)⟩

end Miniqmt
